import Mathlib

/-!
Shallow embedding of the core of a RAG (retrieval-augmented generation)
quality pipeline, together with theorems checking its natural-language
specification against the code.

The embedded components are:

* `RAG.addDocument` — `VectorService.add_document`
  (src/app/services/vector_service.py): content-derived chunk id and the
  write path into the vector index.  The index itself (ChromaDB) is an
  external collaborator; its `add(id, …)` is modelled as an id-keyed
  upsert, per the interface contract of the spec (§5/§6: "same id ⇒
  upsert, not duplicate").  Python's `hash` is modelled as an arbitrary
  function `String → ℤ`, fixed for the run.
* `RAG.searchDocumentsEx` — `VectorService.search_documents`: two-stage
  retrieval (coarse vector query, then cross-encoder rerank).  The coarse
  store query is modelled, per the external interface, as "the
  `n_results` nearest stored documents under the optional category
  filter, ordered by ascending distance"; the cross-encoder is an
  abstract scoring function.  The second component of the result counts
  invocations of `cross_encoder.predict`.
* `RAG.cleanContent` — `DocumentProcessor._clean_content`
  (src/app/services/document_processor.py): sentence segmentation
  (spaCy, abstract), perplexity scoring (abstract), threshold decision
  with the literal `EXCEPTIONS` / `KNOWN_NOISE` override lists.
* `RAG.avgUserRating` — the user-rating aggregate of
  `get_evaluation_stats` (src/app/routes/evaluation.py, lines 312–329).
* `RAG.metricAverage` — the per-metric average of
  `RAGASService.evaluate_interactions`
  (src/app/services/ragas_service.py, lines 189–201); `none` stands for
  a score that is Python `None` or non-numeric, both excluded by the
  list comprehension there.
* `RAG.generateQualityRecommendations` —
  `EvaluationController._generate_quality_recommendations`
  (src/app/controllers/evaluation_controller.py, lines 318–369).
* `RAG.askQuestion` — `RAGService.ask_question`
  (src/app/services/rag_service.py): the no-context short-circuit and
  the call into the external answer generator (`LLMService`), whose
  invocations are counted in the second component.

Real-valued scores (similarities, distances, perplexities, metric
scores) are modelled as rationals.
-/

namespace RAG

/-- A document as ingested (`app/models/document.py`, class `Document`):
optional id, title, category, content, free-form metadata. -/
structure Document where
  id : Option String := none
  title : String
  category : String
  content : String
  metadata : List (String × String) := []
deriving DecidableEq, Repr

/-- An entry of the vector index, keyed by its id
(content plus the metadata written by `add_document`). -/
structure ChromaEntry where
  id : String
  content : String
  title : String
  category : String
deriving DecidableEq, Repr

/-- The content-derived document id of `VectorService.add_document`:
`f"{document.category}_{hash(document.title + document.content)}"`.
`hash` is Python's string hash, an arbitrary fixed `String → ℤ`. -/
def pyHashDocId (hash : String → ℤ) (doc : Document) : String :=
  doc.category ++ "_" ++ toString (hash (doc.title ++ doc.content))

/-- The vector store's `collection.add(ids=[id], …)`, modelled per the
external-collaborator contract as an id-keyed upsert: replace the
entries carrying the id if present, append otherwise. -/
def collectionAdd (col : List ChromaEntry) (e : ChromaEntry) : List ChromaEntry :=
  if col.any (fun x => x.id = e.id) then
    col.map (fun x => if x.id = e.id then e else x)
  else
    col ++ [e]

/-- `VectorService.add_document`: compute the content-derived id,
write the entry into the index under that id, return the id. -/
def addDocument (hash : String → ℤ) (col : List ChromaEntry) (doc : Document) :
    String × List ChromaEntry :=
  let docId := pyHashDocId hash doc
  (docId, collectionAdd col ⟨docId, doc.content, doc.title, doc.category⟩)

/-- A stored document as returned by the coarse vector query. -/
structure StoredDoc where
  id : String
  title : String
  category : String
  content : String
deriving DecidableEq, Repr

/-- A search result (`app/models/document.py`, class `DocumentResponse`).
The source's `similarity_score` field is `Optional[float]`, but on the
reranking path it is always assigned (first `1 - distance`, then the
cross-encoder score) before it is ever read, so it is modelled as `ℚ`. -/
structure DocumentResponse where
  id : String
  title : String
  category : String
  content : String
  similarity_score : ℚ
deriving DecidableEq, Repr

/-- The `where` filter of `search_documents`:
`if category_filter and category_filter != "string"` — a category filter
is applied only when the argument is truthy (not `None`, not `""`) and
not the literal string `"string"`. -/
def mkWhereFilter (categoryFilter : Option String) : Option String :=
  match categoryFilter with
  | some c => if c ≠ "" ∧ c ≠ "string" then some c else none
  | none => none

/-- Ascending-distance order used by the coarse vector query. -/
def byDistLE (dist : StoredDoc → ℚ) : StoredDoc → StoredDoc → Prop :=
  fun x y => dist x ≤ dist y

instance (dist : StoredDoc → ℚ) : DecidableRel (byDistLE dist) :=
  fun x y => inferInstanceAs (Decidable (dist x ≤ dist y))

/-- The vector store's `collection.query(…, n_results, where)`, modelled
per the external-collaborator contract: the `n_results` stored documents
nearest to the query (smallest distance first) among those passing the
category filter. -/
def collectionQuery (store : List StoredDoc) (dist : StoredDoc → ℚ) (nResults : ℕ)
    (whereFilter : Option String) : List StoredDoc :=
  let filtered := match whereFilter with
    | none => store
    | some c => store.filter (fun d => d.category = c)
  (List.insertionSort (byDistLE dist) filtered).take nResults

/-- The coarse stage of `search_documents`: over-fetch
`initial_limit = min(limit * 3, 20)` candidates from the index under the
optional category filter.  `dist query` gives the embedding distance of
each stored document to the query. -/
def coarseCandidates (query : String) (store : List StoredDoc)
    (dist : String → StoredDoc → ℚ) (limit : ℕ) (categoryFilter : Option String) :
    List StoredDoc :=
  collectionQuery store (dist query) (min (limit * 3) 20) (mkWhereFilter categoryFilter)

/-- The `temp_documents` built from the coarse results, with
`similarity_score = 1 - distance`. -/
def tempDocuments (query : String) (dist : String → StoredDoc → ℚ)
    (coarse : List StoredDoc) : List DocumentResponse :=
  coarse.map (fun d => ⟨d.id, d.title, d.category, d.content, 1 - dist query d⟩)

/-- Overwriting each candidate's `similarity_score` with the
cross-encoder score of the pair `[query, content]`. -/
def applyCrossScores (query : String) (cross : String → String → ℚ)
    (docs : List DocumentResponse) : List DocumentResponse :=
  docs.map (fun t =>
    { id := t.id, title := t.title, category := t.category, content := t.content,
      similarity_score := cross query t.content })

/-- Descending rerank-score order:
`temp_documents.sort(key=lambda x: x.similarity_score, reverse=True)`.
`rerankGE a b` means `a` may come before `b`. -/
def rerankGE : DocumentResponse → DocumentResponse → Prop :=
  fun x y => y.similarity_score ≤ x.similarity_score

instance : DecidableRel rerankGE :=
  fun x y => inferInstanceAs (Decidable (y.similarity_score ≤ x.similarity_score))

instance : IsTotal DocumentResponse rerankGE :=
  ⟨fun a b => le_total b.similarity_score a.similarity_score⟩

instance : IsTrans DocumentResponse rerankGE :=
  ⟨fun _ _ _ hab hbc => le_trans hbc hab⟩

/-- The scored candidate list of one search call, just before sorting. -/
def scoredList (query : String) (store : List StoredDoc)
    (dist : String → StoredDoc → ℚ) (cross : String → String → ℚ) (limit : ℕ)
    (categoryFilter : Option String) : List DocumentResponse :=
  applyCrossScores query cross
    (tempDocuments query dist (coarseCandidates query store dist limit categoryFilter))

/-- The full reranked order (Python's `list.sort` is stable; with
`reverse=True` equal keys keep their original relative order, which a
stable insertion sort under `rerankGE` reproduces). -/
def rerankedAll (query : String) (store : List StoredDoc)
    (dist : String → StoredDoc → ℚ) (cross : String → String → ℚ) (limit : ℕ)
    (categoryFilter : Option String) : List DocumentResponse :=
  List.insertionSort rerankGE (scoredList query store dist cross limit categoryFilter)

/-- `VectorService.search_documents`.  Returns the result list together
with the number of `cross_encoder.predict` invocations made. -/
def searchDocumentsEx (query : String) (store : List StoredDoc)
    (dist : String → StoredDoc → ℚ) (cross : String → String → ℚ) (limit : ℕ)
    (categoryFilter : Option String) : List DocumentResponse × ℕ :=
  let coarse := coarseCandidates query store dist limit categoryFilter
  if coarse.isEmpty then
    ([], 0)
  else
    let temp := tempDocuments query dist coarse
    if temp.isEmpty then
      ([], 0)
    else
      ((List.insertionSort rerankGE (applyCrossScores query cross temp)).take limit, 1)

/-- The result list of `search_documents`. -/
def searchDocuments (query : String) (store : List StoredDoc)
    (dist : String → StoredDoc → ℚ) (cross : String → String → ℚ) (limit : ℕ)
    (categoryFilter : Option String) : List DocumentResponse :=
  (searchDocumentsEx query store dist cross limit categoryFilter).1

/-- The `EXCEPTIONS` list of `_clean_content`: sentences with high
perplexity that are nevertheless legitimate. -/
def EXCEPTIONS : List String :=
  ["O colaborador deve enviar documentos via plataforma digital.",
   "Clientes negativados devem quitar dívidas anteriores antes de nova análise."]

/-- The `KNOWN_NOISE` list of `_clean_content`: sentences removed
regardless of their perplexity. -/
def KNOWN_NOISE : List String :=
  ["Dados fictícios devem ser ignorados pelo modelo.",
   "Este parágrafo é um exemplo de ruído textual proposital."]

/-- `self.PERPLEXITY_THRESHOLD = 600`. -/
def PERPLEXITY_THRESHOLD : ℚ := 600

/-- Python's `str.strip()`: drop leading and trailing whitespace
(written on the character list so that it evaluates inside the kernel). -/
def pyStrip (s : String) : String :=
  String.mk (((s.data.dropWhile Char.isWhitespace).reverse.dropWhile
    Char.isWhitespace).reverse)

/-- Python's `str.split()`: split on whitespace runs, dropping empty
pieces (written on the character list so that it evaluates inside the
kernel). -/
def pyWords (s : String) : List String :=
  ((s.data.splitOnP (fun c => c.isWhitespace)).map String.mk).filter (fun w => w ≠ "")

/-- The rejection decision of `_clean_content`, line 216:
`(ppl > THRESHOLD and sentence_text not in EXCEPTIONS) or sentence_text
in KNOWN_NOISE`. -/
def sentenceRejected (ppl : String → ℚ) (s : String) : Bool :=
  (decide (PERPLEXITY_THRESHOLD < ppl s) && !(decide (s ∈ EXCEPTIONS)))
    || decide (s ∈ KNOWN_NOISE)

/-- The `good_phrases` list of `_clean_content`: each spaCy sentence is
stripped, sentences with fewer than 3 whitespace-separated words are
skipped, the rest are kept exactly when not rejected.  `seg` is the
spaCy sentence segmenter (external), `ppl` the perplexity scorer
(external). -/
def goodPhrases (seg : String → List String) (ppl : String → ℚ) (content : String) :
    List String :=
  ((seg content).map pyStrip).filter
    (fun s => decide (3 ≤ (pyWords s).length) && !(sentenceRejected ppl s))

/-- `DocumentProcessor._clean_content`: if the spaCy model or the
perplexity model failed to load, return the content unchanged;
otherwise return the space-joined accepted sentences. -/
def cleanContent (nlpLoaded modelLoaded : Bool) (seg : String → List String)
    (ppl : String → ℚ) (content : String) : String :=
  if !nlpLoaded || !modelLoaded then
    content
  else
    String.intercalate " " (goodPhrases seg ppl content)

/-- The user-rating aggregate of `get_evaluation_stats`
(src/app/routes/evaluation.py, lines 312–329, field
`average_user_rating` before the 2-decimal display rounding).  Each list
element is one interaction's `user_feedback` column; the SQL query keeps
rows where it `is_not(None)`, and the comprehension
`[i.user_feedback for i in feedback_interactions if i.user_feedback]`
additionally drops Python-falsy ratings (i.e. 0). -/
def avgUserRating (feedbacks : List (Option ℤ)) : ℚ :=
  let feedbackInteractions := feedbacks.filterMap id
  if feedbackInteractions = [] then 0
  else
    let ratings := feedbackInteractions.filter (fun r => r ≠ 0)
    if ratings = [] then 0
    else ((ratings.sum : ℤ) : ℚ) / (ratings.length : ℚ)

/-- The per-metric average of `RAGASService.evaluate_interactions`
(lines 189–201): starting from 0, if the raw score list is non-empty,
average over the valid entries only (`score is not None and
isinstance(score, (int, float))`), falling back to 0 when no entry is
valid.  `none` models a missing (`None`) or non-numeric score. -/
def metricAverage (scores : List (Option ℚ)) : ℚ :=
  if scores = [] then 0
  else
    let valid := scores.filterMap id
    if valid = [] then 0
    else valid.sum / (valid.length : ℚ)

/-- The `average_scores` dictionary consumed by
`_generate_quality_recommendations`; an absent metric makes
`avg_scores.get(metric, 1)` fall back to 1. -/
structure AvgScores where
  faithfulness : Option ℚ
  answer_relevancy : Option ℚ
  context_precision : Option ℚ
deriving DecidableEq, Repr

/-- The `score_distribution` buckets of `_calculate_score_distribution`. -/
structure ScoreDistribution where
  excellent : ℕ
  good : ℕ
  fair : ℕ
  poor : ℕ
deriving DecidableEq, Repr

/-- Recommendation emitted when `faithfulness < 0.7`. -/
def lowFaithfulnessRec : String :=
  "🔍 FIDELIDADE BAIXA: Revisar qualidade dos documentos de base. Considerar limpeza de dados e melhoria do chunking."

/-- Recommendation emitted when `answer_relevancy < 0.8`. -/
def lowRelevancyRec : String :=
  "🎯 RELEVÂNCIA BAIXA: Ajustar prompt do LLM para respostas mais focadas. Considerar fine-tuning ou mudança de modelo."

/-- Recommendation emitted when `context_precision < 0.6`. -/
def lowPrecisionRec : String :=
  "📊 PRECISÃO BAIXA: Otimizar parâmetros de busca vetorial. Considerar re-embedding ou ajuste de similarity threshold."

/-- Recommendation emitted when more than 30% of interactions are poor. -/
def tooManyPoorRec : String :=
  "⚠️ MUITAS INTERAÇÕES RUINS: >30% das interações têm qualidade baixa. Revisão geral do sistema necessária."

/-- Recommendation emitted when some metrics show a declining trend. -/
def decliningRec (declining : List String) : String :=
  "📉 TENDÊNCIA NEGATIVA: Métricas em declínio: " ++ String.intercalate ", " declining
    ++ ". Investigar mudanças recentes no sistema."

/-- Recommendation emitted when nothing triggered. -/
def healthyRec : String :=
  "✅ QUALIDADE EXCELENTE: Sistema funcionando dentro dos padrões esperados."

/-- `EvaluationController._generate_quality_recommendations`: append one
recommendation per triggered threshold (low faithfulness, low relevancy,
low precision, >30% poor bucket, any declining trend), and the single
"healthy" message when none triggered.  `trends` is the
`historical_comparison["trends"]` map as `(metric, trend)` pairs; a
missing map is the empty list. -/
def generateQualityRecommendations (avg : AvgScores) (dist : ScoreDistribution)
    (trends : List (String × String)) : List String :=
  let recs1 := if avg.faithfulness.getD 1 < 7/10 then [lowFaithfulnessRec] else []
  let recs2 := if avg.answer_relevancy.getD 1 < 8/10 then [lowRelevancyRec] else []
  let recs3 := if avg.context_precision.getD 1 < 6/10 then [lowPrecisionRec] else []
  let total := dist.excellent + dist.good + dist.fair + dist.poor
  let poorPercentage : ℚ := (dist.poor : ℚ) / ((max total 1 : ℕ) : ℚ)
  let recs4 := if poorPercentage > 3/10 then [tooManyPoorRec] else []
  let declining := (trends.filter (fun t => t.2 = "declining")).map Prod.fst
  let recs5 := if declining = [] then [] else [decliningRec declining]
  let recs := recs1 ++ recs2 ++ recs3 ++ recs4 ++ recs5
  if recs = [] then [healthyRec] else recs

/-- A cited source of an answer (`app/models/document.py`, class
`Source`). -/
structure AnswerSource where
  id : ℕ
  title : String
  category : String
  similarity_score : ℚ
deriving DecidableEq, Repr

/-- The response of `RAGService.ask_question`. -/
structure AskResponse where
  answer : String
  sources : List AnswerSource
  context_used : ℕ
  question : String
  has_context : Bool
deriving DecidableEq, Repr

/-- The fixed no-context answer of `ask_question`. -/
def noDocsAnswer : String :=
  "Desculpe, não encontrei documentos relevantes para responder sua pergunta."

/-- The `sources` list built by `LLMService.generate_answer`:
one entry per context document, indexed from 1. -/
def generateAnswerSources (docs : List DocumentResponse) : List AnswerSource :=
  (docs.enumFrom 1).map (fun p => ⟨p.1, p.2.title, p.2.category, p.2.similarity_score⟩)

/-- `RAGService.ask_question` downstream of retrieval: if the search
returned no documents, short-circuit with the fixed answer, empty
sources and `has_context=False`; otherwise invoke the external answer
generator (`llm`, abstract) once and package its text with the sources.
The second component counts generator invocations. -/
def askQuestion (relevantDocs : List DocumentResponse)
    (llm : String → List DocumentResponse → String) (question : String) :
    AskResponse × ℕ :=
  if relevantDocs.isEmpty then
    ({ answer := noDocsAnswer, sources := [], context_used := 0,
       question := question, has_context := false }, 0)
  else
    ({ answer := llm question relevantDocs,
       sources := generateAnswerSources relevantDocs,
       context_used := relevantDocs.length,
       question := question, has_context := true }, 1)

/-! ### Concrete instances used to exercise the theorems -/

/-- A four-chunk index: with `limit = 1` the coarse stage fetches only
the three nearest chunks, so the fourth — the one the reranker likes
best — is never seen. -/
def cex2Store : List StoredDoc :=
  [⟨"1", "t1", "c", "alpha"⟩, ⟨"2", "t2", "c", "beta"⟩,
   ⟨"3", "t3", "c", "gamma"⟩, ⟨"4", "t4", "c", "delta"⟩]

/-- Coarse embedding distances for `cex2Store`: chunk 1 nearest, chunk 4
farthest. -/
def cex2Dist : String → StoredDoc → ℚ :=
  fun _ d => if d.id = "1" then 1 else if d.id = "2" then 2 else if d.id = "3" then 3 else 4

/-- Cross-encoder scores for `cex2Store`: the coarse-farthest chunk
(`delta`) reranks highest. -/
def cex2Cross : String → String → ℚ :=
  fun _ content =>
    if content = "alpha" then 5 else if content = "beta" then 4
    else if content = "gamma" then 3 else 9

/-- A three-chunk index: any `limit ≥ 1` makes the coarse stage fetch
all of it, so two calls share the same coarse candidate set. -/
def wit2Store : List StoredDoc :=
  [⟨"1", "t1", "c", "alpha"⟩, ⟨"2", "t2", "c", "beta"⟩, ⟨"3", "t3", "c", "gamma"⟩]

/-- A sentence segmenter returning one known-noise sentence and one
exception-list sentence. -/
def wit5Seg : String → List String :=
  fun _ => ["Dados fictícios devem ser ignorados pelo modelo.",
            "O colaborador deve enviar documentos via plataforma digital."]

/-- A perplexity scorer putting every sentence above the threshold. -/
def wit5Ppl : String → ℚ := fun _ => 1000

end RAG

namespace RAG

/-! ### Helper lemmas -/

/-- After `collectionAdd col e`, some entry carries `e`'s id. -/
theorem collectionAdd_keeps_id (col : List ChromaEntry) (e : ChromaEntry) :
    (collectionAdd col e).any (fun x => x.id = e.id) = true := by
  unfold collectionAdd
  split
  · next h =>
    rcases List.any_eq_true.mp h with ⟨x, hx, hxe⟩
    refine List.any_eq_true.mpr ⟨e, List.mem_map.mpr ⟨x, hx, ?_⟩, by simp⟩
    simp only [decide_eq_true_eq] at hxe
    simp [hxe]
  · exact List.any_eq_true.mpr ⟨e, by simp, by simp⟩

/-- Every entry of `collectionAdd col e` carrying `e`'s id is `e` itself. -/
theorem mem_collectionAdd_id_eq (col : List ChromaEntry) (e : ChromaEntry)
    {x : ChromaEntry} (hx : x ∈ collectionAdd col e) (hid : x.id = e.id) : x = e := by
  unfold collectionAdd at hx
  split at hx
  · rcases List.mem_map.mp hx with ⟨y, hy, hfy⟩
    by_cases hy2 : y.id = e.id
    · simpa [hy2] using hfy.symm
    · rw [if_neg hy2] at hfy
      exact absurd (hfy ▸ hid) hy2
  · next h =>
    rcases List.mem_append.mp hx with hmem | hmem
    · have hall : ∀ y ∈ col, y.id ≠ e.id := by
        intro y hy hyid
        exact h (List.any_eq_true.mpr ⟨y, hy, by simp [hyid]⟩)
      exact absurd hid (hall x hmem)
    · simpa using hmem

/-- Re-adding the same entry leaves the index unchanged. -/
theorem collectionAdd_idem (col : List ChromaEntry) (e : ChromaEntry) :
    collectionAdd (collectionAdd col e) e = collectionAdd col e := by
  have hmap : ∀ (l : List ChromaEntry), (∀ x ∈ l, (if x.id = e.id then e else x) = x) →
      l.map (fun x => if x.id = e.id then e else x) = l := by
    intro l h
    induction l with
    | nil => rfl
    | cons a t ih =>
      simp only [List.map_cons, h a (by simp)]
      rw [ih (fun x hx => h x (by simp [hx]))]
  conv_lhs => rw [collectionAdd]
  rw [if_pos (collectionAdd_keeps_id col e)]
  exact hmap _ (fun x hx => by
    by_cases hid : x.id = e.id
    · rw [if_pos hid, mem_collectionAdd_id_eq col e hx hid]
    · rw [if_neg hid])

/-! ### Claim theorems -/

/-- C1: the id stored in the vector index by `add_document` is a
deterministic function of the document's category, title and content
(`category + "_" + hash(title + content)`, with Python's string hash an
arbitrary fixed function); ingesting the same document twice yields the
same id and leaves the index exactly as after the first ingestion, so
no entry is duplicated. -/
theorem ingestion_idempotent_content_id (hash : String → ℤ) (col : List ChromaEntry)
    (doc : Document) :
    (addDocument hash col doc).1
        = doc.category ++ "_" ++ toString (hash (doc.title ++ doc.content)) ∧
    (addDocument hash (addDocument hash col doc).2 doc).1 = (addDocument hash col doc).1 ∧
    (addDocument hash (addDocument hash col doc).2 doc).2 = (addDocument hash col doc).2 := by
  refine ⟨rfl, rfl, ?_⟩
  exact collectionAdd_idem col _

/-- C9: when the sentence segmenter (spaCy) or the perplexity model is
unavailable, `_clean_content` is the identity on the input text. -/
theorem clean_identity_without_models (b : Bool) (seg : String → List String)
    (ppl : String → ℚ) (content : String) :
    cleanContent false b seg ppl content = content ∧
    cleanContent b false seg ppl content = content := by
  constructor
  · rfl
  · unfold cleanContent
    cases b <;> rfl

/-- C3 counterexample: the claim predicts that a single interaction
rated 5 yields a perceived-precision aggregate of `(5-1)/4 = 1.0`;
the code's aggregate over that input is the raw mean `5`, not `1`. -/
theorem avg_user_rating_not_normalized_cex :
    avgUserRating [some 5] = 5 ∧ avgUserRating [some 5] ≠ (5 - 1) / 4 := by
  have h : avgUserRating [some 5] = 5 := by
    simp only [avgUserRating, List.filterMap_cons, List.filterMap_nil, id]
    norm_num
  exact ⟨h, by rw [h]; norm_num⟩

/-- C3 amended: the user-rating aggregate of `get_evaluation_stats` is
the mean of the raw ratings over the rated interactions only — an
unrated interaction (`user_feedback` absent) changes nothing — with no
`(rating−1)/4` normalization (a single rating of 5 yields 5), and it is
0, not `None`/absent, when no ratings exist. -/
theorem avg_user_rating_raw_mean (pre post : List (Option ℤ)) :
    avgUserRating (pre ++ none :: post) = avgUserRating (pre ++ post) ∧
    avgUserRating [some 5] = 5 ∧
    avgUserRating [] = 0 := by
  refine ⟨?_, ?_, by simp [avgUserRating]⟩
  · unfold avgUserRating
    simp only [List.filterMap_append, List.filterMap_cons, id]
  · simp only [avgUserRating, List.filterMap_cons, List.filterMap_nil, id]
    norm_num

/-- C4: the per-metric average of `evaluate_interactions` is computed
only over present, numeric scores: inserting a missing/non-numeric score
anywhere leaves the average unchanged (it is excluded from the
denominator, not coerced to zero), and `[0.9, None, 0.7]` averages to
`0.8` over the 2 valid entries. -/
theorem metric_average_excludes_missing (pre post : List (Option ℚ)) :
    metricAverage (pre ++ none :: post) = metricAverage (pre ++ post) ∧
    metricAverage [some (9/10), none, some (7/10)] = 8/10 := by
  constructor
  · unfold metricAverage
    simp only [List.filterMap_append, List.filterMap_cons, id]
    by_cases hpp : pre ++ post = []
    · rcases List.append_eq_nil.mp hpp with ⟨rfl, rfl⟩
      simp
    · rw [if_neg (by simp), if_neg hpp]
  · simp only [metricAverage, List.filterMap_cons, List.filterMap_nil, id]
    rw [if_neg (by simp), if_neg (by simp)]
    norm_num

/-- C5: override precedence in `_clean_content` — a sentence on the
`KNOWN_NOISE` list never survives into the accepted sentences, whatever
its perplexity; a sentence on the `EXCEPTIONS` list that occurs among
the (stripped) segmented sentences is always accepted, in particular
when its perplexity exceeds the threshold. -/
theorem filter_override_precedence (seg : String → List String) (ppl : String → ℚ)
    (content : String) (s : String) :
    (s ∈ KNOWN_NOISE → s ∉ goodPhrases seg ppl content) ∧
    (s ∈ EXCEPTIONS → s ∈ (seg content).map pyStrip → s ∈ goodPhrases seg ppl content) := by
  constructor
  · intro hnoise hmem
    rw [goodPhrases] at hmem
    have hpred := (List.mem_filter.mp hmem).2
    have hrej : sentenceRejected ppl s = true := by
      unfold sentenceRejected
      simp [hnoise]
    simp [hrej] at hpred
  · intro hexc hmem
    rw [goodPhrases]
    refine List.mem_filter.mpr ⟨hmem, ?_⟩
    have h2 : decide (s ∈ KNOWN_NOISE) = false := by
      fin_cases hexc <;> decide
    have hlen : decide (3 ≤ (pyWords s).length) = true := by
      fin_cases hexc <;> decide
    have hnot : sentenceRejected ppl s = false := by
      unfold sentenceRejected
      simp [hexc, h2]
    simp [hlen, hnot]

/-- C5 witness: on a concrete segmentation containing one known-noise
sentence and one exception sentence, with every perplexity at 1000
(above the threshold 600), the noise sentence is excluded and the
exception sentence is kept. -/
theorem filter_override_precedence_witness :
    "Dados fictícios devem ser ignorados pelo modelo."
        ∉ goodPhrases wit5Seg wit5Ppl "doc" ∧
    "O colaborador deve enviar documentos via plataforma digital."
        ∈ goodPhrases wit5Seg wit5Ppl "doc" :=
  ⟨(filter_override_precedence wit5Seg wit5Ppl "doc" _).1 (by decide),
   (filter_override_precedence wit5Seg wit5Ppl "doc" _).2 (by decide) (by decide)⟩

/-- Falling back to a fixed element on the empty list never yields the
empty list (the shape of the final step of
`_generate_quality_recommendations`). -/
theorem ite_append_ne_nil (l : List String) (d : String) :
    (if l = [] then [d] else l) ≠ [] := by
  split
  · simp
  · next h => exact h

/-- C8: `_generate_quality_recommendations` is total — it returns a
non-empty list on every aggregate input — and on an input where no
threshold triggers (all-perfect scores, no poor bucket, no declining
trend) it returns exactly the single "healthy" message. -/
theorem recommendations_total (avg : AvgScores) (dist : ScoreDistribution)
    (trends : List (String × String)) :
    generateQualityRecommendations avg dist trends ≠ [] ∧
    generateQualityRecommendations ⟨some 1, some 1, some 1⟩ ⟨5, 0, 0, 0⟩ []
      = [healthyRec] := by
  constructor
  · unfold generateQualityRecommendations
    dsimp only
    exact ite_append_ne_nil _ _
  · norm_num [generateQualityRecommendations]

/-- The search result is the `limit`-item truncation of the full stable
descending rerank order. -/
theorem searchDocuments_eq_take (query : String) (store : List StoredDoc)
    (dist : String → StoredDoc → ℚ) (cross : String → String → ℚ) (limit : ℕ)
    (cf : Option String) :
    searchDocuments query store dist cross limit cf
      = (rerankedAll query store dist cross limit cf).take limit := by
  unfold searchDocuments searchDocumentsEx rerankedAll scoredList
  by_cases h : coarseCandidates query store dist limit cf = []
  · simp [h, tempDocuments, applyCrossScores]
  · have hne : (coarseCandidates query store dist limit cf).isEmpty = false := by
      simpa [List.isEmpty_iff] using h
    have hne2 : (tempDocuments query dist
        (coarseCandidates query store dist limit cf)).isEmpty = false := by
      simp [tempDocuments, List.isEmpty_iff, h]
    simp [hne, hne2]

/-- C2 counterexample: prefix stability fails as stated.  On the
concrete index `cex2Store`, the `limit = 1` call coarse-fetches only
`min(3, 20) = 3` candidates, while the `limit = 2` call fetches 6; the
chunk the reranker scores highest is only in the larger coarse set, so
the top-1 of the `limit = 2` call differs from the `limit = 1` call. -/
theorem search_prefix_stability_cex :
    (searchDocuments "q" cex2Store cex2Dist cex2Cross 2 none).take 1
      ≠ searchDocuments "q" cex2Store cex2Dist cex2Cross 1 none := by
  decide

/-- C2 amended: `search_documents` returns results sorted by descending
rerank score; it equals the `limit`-truncation of the stable descending
sort of the scored coarse candidates, so rerank-score ties retain
coarse-stage relative order; and prefix stability holds for `k₁ ≤ k₂`
provided the two calls' coarse stages return the same candidate set
(which the as-stated claim missed: `initial_limit = min(limit·3, 20)`
depends on `limit`). -/
theorem search_sorted_stable_prefix_stability (query : String) (store : List StoredDoc)
    (dist : String → StoredDoc → ℚ) (cross : String → String → ℚ) (k₁ k₂ : ℕ)
    (cf : Option String) (hk : k₁ ≤ k₂)
    (hco : coarseCandidates query store dist k₁ cf
      = coarseCandidates query store dist k₂ cf) :
    List.Sorted rerankGE (searchDocuments query store dist cross k₂ cf) ∧
    (∀ a b : DocumentResponse, a.similarity_score = b.similarity_score →
      List.Sublist [a, b] (scoredList query store dist cross k₂ cf) →
      List.Sublist [a, b] (rerankedAll query store dist cross k₂ cf)) ∧
    (searchDocuments query store dist cross k₂ cf).take k₁
      = searchDocuments query store dist cross k₁ cf := by
  refine ⟨?_, ?_, ?_⟩
  · rw [searchDocuments_eq_take]
    exact List.Pairwise.sublist (List.take_sublist _ _)
      (List.sorted_insertionSort rerankGE _)
  · intro a b hab hsub
    exact List.pair_sublist_insertionSort (le_of_eq hab.symm) hsub
  · rw [searchDocuments_eq_take, searchDocuments_eq_take]
    have hall : rerankedAll query store dist cross k₂ cf
        = rerankedAll query store dist cross k₁ cf := by
      unfold rerankedAll scoredList
      rw [hco]
    rw [hall, List.take_take, min_eq_left hk]

/-- C2 witness: on the three-chunk index `wit2Store` the `limit = 1` and
`limit = 2` coarse stages fetch the same candidate set, and the top-1 of
the `limit = 2` call equals the `limit = 1` call. -/
theorem search_prefix_stability_witness :
    (searchDocuments "q" wit2Store cex2Dist cex2Cross 2 none).take 1
      = searchDocuments "q" wit2Store cex2Dist cex2Cross 1 none :=
  (search_sorted_stable_prefix_stability "q" wit2Store cex2Dist cex2Cross 1 2 none
    (by decide) (by decide)).2.2

/-- C7: if the coarse vector stage returns zero candidates,
`search_documents` returns the empty list and the cross-encoder
(`predict`) is never invoked. -/
theorem coarse_empty_no_rerank (query : String) (store : List StoredDoc)
    (dist : String → StoredDoc → ℚ) (cross : String → String → ℚ) (limit : ℕ)
    (cf : Option String)
    (h : coarseCandidates query store dist limit cf = []) :
    searchDocumentsEx query store dist cross limit cf = ([], 0) := by
  unfold searchDocumentsEx
  simp [h]

/-- C7 witness: on an empty index the coarse stage returns no
candidates, the search result is empty and the reranker call count is
zero. -/
theorem coarse_empty_no_rerank_witness :
    coarseCandidates "q" [] (fun _ _ => 0) 5 none = [] ∧
    searchDocumentsEx "q" [] (fun _ _ => 0) (fun _ _ => 0) 5 none = ([], 0) :=
  ⟨by decide, coarse_empty_no_rerank "q" [] (fun _ _ => 0) (fun _ _ => 0) 5 none (by decide)⟩

/-- C10: passing `category_filter="string"` (or the falsy `""`, or
`None`) applies no category filter at all — the search behaves
identically to an unfiltered search, including the reranker call count,
rather than filtering to a category named `"string"`. -/
theorem category_filter_string_ignored (query : String) (store : List StoredDoc)
    (dist : String → StoredDoc → ℚ) (cross : String → String → ℚ) (limit : ℕ) :
    searchDocumentsEx query store dist cross limit (some "string")
      = searchDocumentsEx query store dist cross limit none ∧
    searchDocumentsEx query store dist cross limit (some "")
      = searchDocumentsEx query store dist cross limit none := by
  have h1 : mkWhereFilter (some "string") = none := by simp [mkWhereFilter]
  have h2 : mkWhereFilter (some "") = none := by simp [mkWhereFilter]
  have h3 : mkWhereFilter none = none := rfl
  constructor <;> (unfold searchDocumentsEx coarseCandidates; simp only [h1, h2, h3])

/-- C6: when retrieval returns zero candidates, `ask_question`
short-circuits with the fixed "no relevant documents" answer, an empty
sources list, zero context and `has_context=False`, and the external
answer generator is never invoked (second component 0). -/
theorem no_context_short_circuit (query : String) (store : List StoredDoc)
    (dist : String → StoredDoc → ℚ) (cross : String → String → ℚ) (limit : ℕ)
    (cf : Option String) (llm : String → List DocumentResponse → String)
    (question : String)
    (h : searchDocuments query store dist cross limit cf = []) :
    askQuestion (searchDocuments query store dist cross limit cf) llm question
      = ({ answer := noDocsAnswer, sources := [], context_used := 0,
           question := question, has_context := false }, 0) := by
  rw [h]
  rfl

/-- C6 witness: on an empty index, retrieval returns nothing and the
pipeline answers with the fixed no-context response without calling the
generator. -/
theorem no_context_short_circuit_witness :
    askQuestion (searchDocuments "q" [] (fun _ _ => 0) (fun _ _ => 0) 5 none)
        (fun _ _ => "generated") "q"
      = ({ answer := noDocsAnswer, sources := [], context_used := 0,
           question := "q", has_context := false }, 0) :=
  no_context_short_circuit "q" [] (fun _ _ => 0) (fun _ _ => 0) 5 none
    (fun _ _ => "generated") "q" (by decide)

end RAG
